import Mathlib

/-!
Verification of the LSM303AGR device-driver core (`src/device_impl.rs`)
against its design specification.

The driver is embedded shallowly: the device handle is a structure holding
the bus-interface state and the cached configuration-register values; every
fallible operation is a function from the handle and an abstract bus model
to a result, the updated handle, and the trace of bus operations issued.
The bus model is an arbitrary state-transition function per bus capability,
so theorems quantify over every possible bus behaviour (including failures).
-/

namespace LSM303AGR

/-- Modelled from the spec (the `Config` type lives outside `src/`):
a Configuration Register Value is a single unsigned byte holding the
last-known bit pattern of one hardware configuration register. -/
structure Config where
  bits : Nat
deriving DecidableEq

/-- Modelled from the spec: pure bit-set transformation, returning a new value
whose bit pattern is the bitwise OR of the flag mask with the prior pattern. -/
def Config.with_high (c : Config) (flag : Nat) : Config :=
  ⟨c.bits ||| flag⟩

/-- Modelled from the spec: pure bit-clear transformation, returning a new value
whose bit pattern is the bitwise AND-NOT (within the byte) of the flag mask
with the prior pattern. -/
def Config.with_low (c : Config) (flag : Nat) : Config :=
  ⟨c.bits &&& (255 ^^^ flag)⟩

/-- Modelled from the spec: query whether the bit(s) of the given flag mask
are set in the cached pattern. -/
def Config.is_high (c : Config) (flag : Nat) : Bool :=
  c.bits &&& flag != 0

/-- Modelled from the spec: the flag masks are fixed protocol constants.
Accelerometer block-data-update bit of CTRL_REG4_A. -/
def BitFlags.ACCEL_BDU : Nat := 0x80

/-- Modelled from the spec: magnetometer block-data-update bit of CFG_REG_C_M. -/
def BitFlags.MAG_BDU : Nat := 0x10

/-- Modelled from the spec: temperature-sensor enable bits of TEMP_CFG_REG_A. -/
def BitFlags.TEMP_EN : Nat := 0xC0

/-- Modelled from the spec: register addresses are fixed protocol constants,
not re-derived here; only their identity matters to the claims. -/
def Register.CTRL_REG4_A : Nat := 0x23

/-- Modelled from the spec: magnetometer configuration register C address. -/
def Register.CFG_REG_C_M : Nat := 0x62

/-- Modelled from the spec: temperature-enable register address. -/
def Register.TEMP_CFG_REG_A : Nat := 0x1F

/-- Modelled from the spec: accelerometer status register address. -/
def Register.STATUS_REG_A : Nat := 0x27

/-- Modelled from the spec: temperature status register address. -/
def Register.STATUS_REG_AUX_A : Nat := 0x07

/-- Modelled from the spec: magnetometer status register address. -/
def Register.STATUS_REG_M : Nat := 0x67

/-- Modelled from the spec: accelerometer identity register address. -/
def Register.WHO_AM_I_A : Nat := 0x0F

/-- Modelled from the spec: magnetometer identity register address. -/
def Register.WHO_AM_I_M : Nat := 0x4F

/-- Modelled from the spec: first accelerometer output register (X low byte). -/
def Register.OUT_X_L_A : Nat := 0x28

/-- Modelled from the spec: temperature output register pair (low byte). -/
def Register.OUT_TEMP_L_A : Nat := 0x0C

/-- Modelled from the spec: documented expected accelerometer identity byte. -/
def WHO_AM_I_A_VAL : Nat := 0x33

/-- Modelled from the spec: documented expected magnetometer identity byte. -/
def WHO_AM_I_M_VAL : Nat := 0x40

/-- The I2C (shared-bus) interface realization: wraps the bus object. -/
structure I2cInterface (I2C : Type u) where
  i2c : I2C

/-- The SPI (dedicated-bus) interface realization: wraps the bus object and
the two chip-select pins. -/
structure SpiInterface (SPI : Type u) (CSXL : Type v) (CSMAG : Type w) where
  spi : SPI
  cs_xl : CSXL
  cs_mag : CSMAG

/-- A bus operation as observable on the wire; driver operations are
instrumented to return the list of operations they issued. -/
inductive BusOp where
  | writeAccel (addr val : Nat)
  | writeMag (addr val : Nat)
  | readAccel (addr : Nat)
  | readMag (addr : Nat)
  | readAccelDouble (addr : Nat)
  | readAccel3Double (addr : Nat)
deriving DecidableEq

/-- Whether a bus operation is a read (no operation of this kind can change
device configuration state). -/
def BusOp.isRead : BusOp → Bool
  | .writeAccel _ _ => false
  | .writeMag _ _ => false
  | _ => true

/-- Modelled from the spec (the `ReadData`/`WriteData` traits live outside
`src/`): an abstract bus with one state-transition function per capability;
each returns a result (success payload or transport error) and the next
interface state. -/
structure BusModel (DI : Type u) (E : Type v) where
  write_accel_register : DI → Nat → Nat → Except E Unit × DI
  write_mag_register : DI → Nat → Nat → Except E Unit × DI
  read_accel_register : DI → Nat → Except E Nat × DI
  read_mag_register : DI → Nat → Except E Nat × DI
  read_accel_double_register : DI → Nat → Except E Int × DI
  read_accel_3_double_registers : DI → Nat → Except E (Int × Int × Int) × DI

/-- Modelled from the spec: a status value wraps the raw status-register byte. -/
structure Status where
  raw : Nat
deriving DecidableEq

/-- Modelled from the spec: build a status value from the raw byte. -/
def Status.new (b : Nat) : Status := ⟨b⟩

/-- Modelled from the spec: a temperature status value wraps the raw byte. -/
structure TemperatureStatus where
  raw : Nat
deriving DecidableEq

/-- Modelled from the spec: build a temperature status value from the raw byte. -/
def TemperatureStatus.new (b : Nat) : TemperatureStatus := ⟨b⟩

/-- Modelled from the spec: a temperature measurement holds the raw signed value. -/
structure Temperature where
  raw : Int
deriving DecidableEq

/-- The device handle: the bus interface plus the cached configuration
register values (fields as in the source). -/
structure Lsm303agr (DI : Type u) where
  iface : DI
  ctrl_reg1_a : Config
  ctrl_reg4_a : Config
  cfg_reg_a_m : Config
  cfg_reg_b_m : Config
  cfg_reg_c_m : Config
  temp_cfg_reg_a : Config
  accel_odr : Option Nat

/-- Modelled from the spec: the accelerometer operating mode is decoded from
the cached control registers 1 and 4; we model it by the pair of cached bit
patterns it is a function of. -/
def Lsm303agr.get_accel_mode {DI : Type u} (d : Lsm303agr DI) : Nat × Nat :=
  (d.ctrl_reg1_a.bits, d.ctrl_reg4_a.bits)

/-- Modelled from the spec: the accelerometer full-scale range is decoded from
the cached control register 4; we model it by the cached bit pattern. -/
def Lsm303agr.get_accel_scale {DI : Type u} (d : Lsm303agr DI) : Nat :=
  d.ctrl_reg4_a.bits

/-- An acceleration measurement: the three signed raw axis values plus the
mode and scale attached from the cache. -/
structure Acceleration where
  x : Int
  y : Int
  z : Int
  mode : Nat × Nat
  scale : Nat
deriving DecidableEq

/-- `new_with_i2c` from the source: construct the handle over I2C with the
power-on-reset cache defaults; no bus transaction is performed. -/
def new_with_i2c {I2C : Type u} (i2c : I2C) : Lsm303agr (I2cInterface I2C) :=
  { iface := { i2c := i2c }
    ctrl_reg1_a := { bits := 0x7 }
    ctrl_reg4_a := { bits := 0 }
    cfg_reg_a_m := { bits := 0x3 }
    cfg_reg_b_m := { bits := 0 }
    cfg_reg_c_m := { bits := 0 }
    temp_cfg_reg_a := { bits := 0 }
    accel_odr := none }

/-- `destroy` (I2C impl) from the source: return the I2C bus object. -/
def Lsm303agr.destroy {I2C : Type u} (d : Lsm303agr (I2cInterface I2C)) : I2C :=
  d.iface.i2c

/-- `new_with_spi` from the source: construct the handle over SPI with the
power-on-reset cache defaults; no bus transaction is performed. -/
def new_with_spi {SPI : Type u} {CSXL : Type v} {CSMAG : Type w}
    (spi : SPI) (chip_select_accel : CSXL) (chip_select_mag : CSMAG) :
    Lsm303agr (SpiInterface SPI CSXL CSMAG) :=
  { iface := { spi := spi, cs_xl := chip_select_accel, cs_mag := chip_select_mag }
    ctrl_reg1_a := { bits := 0x7 }
    ctrl_reg4_a := { bits := 0 }
    cfg_reg_a_m := { bits := 0x3 }
    cfg_reg_b_m := { bits := 0 }
    cfg_reg_c_m := { bits := 0 }
    temp_cfg_reg_a := { bits := 0 }
    accel_odr := none }

/-- `destroy` (SPI impl) from the source: return the SPI bus object and the
two chip-select pins, in that order. -/
def Lsm303agr.destroy_spi {SPI : Type u} {CSXL : Type v} {CSMAG : Type w}
    (d : Lsm303agr (SpiInterface SPI CSXL CSMAG)) : SPI × CSXL × CSMAG :=
  (d.iface.spi, d.iface.cs_xl, d.iface.cs_mag)

/-- `init` from the source: write CTRL_REG4_A with the accelerometer
block-data-update bit forced high, then CFG_REG_C_M with the magnetometer
block-data-update bit forced high; each cache field is assigned only after
its physical write returned success, and an error propagates at once. -/
def Lsm303agr.init {DI : Type u} {E : Type v} (d : Lsm303agr DI) (bus : BusModel DI E) :
    Except E Unit × Lsm303agr DI × List BusOp :=
  let reg4 := d.ctrl_reg4_a.with_high BitFlags.ACCEL_BDU
  match bus.write_accel_register d.iface Register.CTRL_REG4_A reg4.bits with
  | (.error e, i) =>
      (.error e, { d with iface := i },
        [.writeAccel Register.CTRL_REG4_A reg4.bits])
  | (.ok _, i) =>
      let d1 := { d with iface := i, ctrl_reg4_a := reg4 }
      let regc := d1.cfg_reg_c_m.with_high BitFlags.MAG_BDU
      match bus.write_mag_register d1.iface Register.CFG_REG_C_M regc.bits with
      | (.error e, i2) =>
          (.error e, { d1 with iface := i2 },
            [.writeAccel Register.CTRL_REG4_A reg4.bits,
             .writeMag Register.CFG_REG_C_M regc.bits])
      | (.ok _, i2) =>
          (.ok (), { d1 with iface := i2, cfg_reg_c_m := regc },
            [.writeAccel Register.CTRL_REG4_A reg4.bits,
             .writeMag Register.CFG_REG_C_M regc.bits])

/-- `enable_temperature_sensor` from the source: return at once when the
cached enable bit is already high; otherwise write TEMP_CFG_REG_A with the
enable bit forced high and update the cache only on success. -/
def Lsm303agr.enable_temperature_sensor {DI : Type u} {E : Type v}
    (d : Lsm303agr DI) (bus : BusModel DI E) :
    Except E Unit × Lsm303agr DI × List BusOp :=
  if d.temp_cfg_reg_a.is_high BitFlags.TEMP_EN then
    (.ok (), d, [])
  else
    let temp_cfg_reg := d.temp_cfg_reg_a.with_high BitFlags.TEMP_EN
    match bus.write_accel_register d.iface Register.TEMP_CFG_REG_A temp_cfg_reg.bits with
    | (.error e, i) =>
        (.error e, { d with iface := i },
          [.writeAccel Register.TEMP_CFG_REG_A temp_cfg_reg.bits])
    | (.ok _, i) =>
        (.ok (), { d with iface := i, temp_cfg_reg_a := temp_cfg_reg },
          [.writeAccel Register.TEMP_CFG_REG_A temp_cfg_reg.bits])

/-- `accel_status` from the source: read STATUS_REG_A and wrap the byte. -/
def Lsm303agr.accel_status {DI : Type u} {E : Type v}
    (d : Lsm303agr DI) (bus : BusModel DI E) :
    Except E Status × Lsm303agr DI × List BusOp :=
  match bus.read_accel_register d.iface Register.STATUS_REG_A with
  | (.error e, i) => (.error e, { d with iface := i }, [.readAccel Register.STATUS_REG_A])
  | (.ok b, i) => (.ok (Status.new b), { d with iface := i }, [.readAccel Register.STATUS_REG_A])

/-- `acceleration` from the source: one 3-axis burst read starting at
OUT_X_L_A, then build the measurement with the currently cached mode and
scale attached. -/
def Lsm303agr.acceleration {DI : Type u} {E : Type v}
    (d : Lsm303agr DI) (bus : BusModel DI E) :
    Except E Acceleration × Lsm303agr DI × List BusOp :=
  match bus.read_accel_3_double_registers d.iface Register.OUT_X_L_A with
  | (.error e, i) =>
      (.error e, { d with iface := i }, [.readAccel3Double Register.OUT_X_L_A])
  | (.ok (x, y, z), i) =>
      let d1 : Lsm303agr DI := { d with iface := i }
      (.ok { x := x, y := y, z := z,
             mode := d1.get_accel_mode, scale := d1.get_accel_scale },
        d1, [.readAccel3Double Register.OUT_X_L_A])

/-- `mag_status` from the source: read STATUS_REG_M and wrap the byte. -/
def Lsm303agr.mag_status {DI : Type u} {E : Type v}
    (d : Lsm303agr DI) (bus : BusModel DI E) :
    Except E Status × Lsm303agr DI × List BusOp :=
  match bus.read_mag_register d.iface Register.STATUS_REG_M with
  | (.error e, i) => (.error e, { d with iface := i }, [.readMag Register.STATUS_REG_M])
  | (.ok b, i) => (.ok (Status.new b), { d with iface := i }, [.readMag Register.STATUS_REG_M])

/-- `accelerometer_id` from the source: read the WHO_AM_I_A register. -/
def Lsm303agr.accelerometer_id {DI : Type u} {E : Type v}
    (d : Lsm303agr DI) (bus : BusModel DI E) :
    Except E Nat × Lsm303agr DI × List BusOp :=
  match bus.read_accel_register d.iface Register.WHO_AM_I_A with
  | (.error e, i) => (.error e, { d with iface := i }, [.readAccel Register.WHO_AM_I_A])
  | (.ok b, i) => (.ok b, { d with iface := i }, [.readAccel Register.WHO_AM_I_A])

/-- `accelerometer_is_detected` from the source: read the id and compare it
with the expected constant; a mismatch yields `ok false`, never an error. -/
def Lsm303agr.accelerometer_is_detected {DI : Type u} {E : Type v}
    (d : Lsm303agr DI) (bus : BusModel DI E) :
    Except E Bool × Lsm303agr DI × List BusOp :=
  match d.accelerometer_id bus with
  | (.error e, d1, tr) => (.error e, d1, tr)
  | (.ok b, d1, tr) => (.ok (b == WHO_AM_I_A_VAL), d1, tr)

/-- `magnetometer_id` from the source: read the WHO_AM_I_M register. -/
def Lsm303agr.magnetometer_id {DI : Type u} {E : Type v}
    (d : Lsm303agr DI) (bus : BusModel DI E) :
    Except E Nat × Lsm303agr DI × List BusOp :=
  match bus.read_mag_register d.iface Register.WHO_AM_I_M with
  | (.error e, i) => (.error e, { d with iface := i }, [.readMag Register.WHO_AM_I_M])
  | (.ok b, i) => (.ok b, { d with iface := i }, [.readMag Register.WHO_AM_I_M])

/-- `magnetometer_is_detected` from the source: read the id and compare it
with the expected constant; a mismatch yields `ok false`, never an error. -/
def Lsm303agr.magnetometer_is_detected {DI : Type u} {E : Type v}
    (d : Lsm303agr DI) (bus : BusModel DI E) :
    Except E Bool × Lsm303agr DI × List BusOp :=
  match d.magnetometer_id bus with
  | (.error e, d1, tr) => (.error e, d1, tr)
  | (.ok b, d1, tr) => (.ok (b == WHO_AM_I_M_VAL), d1, tr)

/-- `temperature` from the source: one 16-bit burst read at OUT_TEMP_L_A,
returning the raw value; the temperature sensor is not enabled first. -/
def Lsm303agr.temperature {DI : Type u} {E : Type v}
    (d : Lsm303agr DI) (bus : BusModel DI E) :
    Except E Temperature × Lsm303agr DI × List BusOp :=
  match bus.read_accel_double_register d.iface Register.OUT_TEMP_L_A with
  | (.error e, i) =>
      (.error e, { d with iface := i }, [.readAccelDouble Register.OUT_TEMP_L_A])
  | (.ok data, i) =>
      (.ok { raw := data }, { d with iface := i }, [.readAccelDouble Register.OUT_TEMP_L_A])

/-- `temperature_status` from the source: first guarantee the temperature
sensor is enabled, then read STATUS_REG_AUX_A and wrap the byte. -/
def Lsm303agr.temperature_status {DI : Type u} {E : Type v}
    (d : Lsm303agr DI) (bus : BusModel DI E) :
    Except E TemperatureStatus × Lsm303agr DI × List BusOp :=
  match d.enable_temperature_sensor bus with
  | (.error e, d1, tr) => (.error e, d1, tr)
  | (.ok _, d1, tr) =>
      match bus.read_accel_register d1.iface Register.STATUS_REG_AUX_A with
      | (.error e, i) =>
          (.error e, { d1 with iface := i }, tr ++ [.readAccel Register.STATUS_REG_AUX_A])
      | (.ok b, i) =>
          (.ok (TemperatureStatus.new b), { d1 with iface := i },
            tr ++ [.readAccel Register.STATUS_REG_AUX_A])

/-- Iterate `temperature_status` a given number of times, accumulating the
device state and the concatenated trace of the calls. -/
def Lsm303agr.temperature_status_iter {DI : Type u} {E : Type v}
    (d : Lsm303agr DI) (bus : BusModel DI E) : Nat → Lsm303agr DI × List BusOp
  | 0 => (d, [])
  | n + 1 =>
      let r := d.temperature_status bus
      let rest := r.2.1.temperature_status_iter bus n
      (rest.1, r.2.2 ++ rest.2)

/-- Number of physical writes to TEMP_CFG_REG_A in a trace. -/
def countTempCfgWrites (tr : List BusOp) : Nat :=
  tr.countP fun o =>
    match o with
    | .writeAccel a _ => a == Register.TEMP_CFG_REG_A
    | _ => false

/-- Equality of the full six-field configuration-register cache between two
handles (possibly over different interface realizations). -/
def cacheEq {DI₁ : Type u} {DI₂ : Type v} (a : Lsm303agr DI₁) (b : Lsm303agr DI₂) : Prop :=
  a.ctrl_reg1_a = b.ctrl_reg1_a ∧ a.ctrl_reg4_a = b.ctrl_reg4_a ∧
  a.cfg_reg_a_m = b.cfg_reg_a_m ∧ a.cfg_reg_b_m = b.cfg_reg_b_m ∧
  a.cfg_reg_c_m = b.cfg_reg_c_m ∧ a.temp_cfg_reg_a = b.temp_cfg_reg_a

/-- A concrete always-succeeding bus over a unit interface state, used to
instantiate universally quantified theorems at concrete inputs. -/
def okBus : BusModel Unit Unit :=
  { write_accel_register := fun s _ _ => (.ok (), s)
    write_mag_register := fun s _ _ => (.ok (), s)
    read_accel_register := fun s _ => (.ok 0x33, s)
    read_mag_register := fun s _ => (.ok 0x40, s)
    read_accel_double_register := fun s _ => (.ok 0x1234, s)
    read_accel_3_double_registers := fun s _ => (.ok (1, 2, 3), s) }

/-- A concrete bus whose magnetometer writes fail, exercising the partial
failure path of `init` at a concrete input. -/
def magFailBus : BusModel Unit Unit :=
  { okBus with write_mag_register := fun s _ _ => (.error (), s) }

/-- A concrete device handle over the unit interface state holding the
power-on-reset cache defaults. -/
def unitDev : Lsm303agr Unit :=
  { iface := ()
    ctrl_reg1_a := { bits := 0x7 }
    ctrl_reg4_a := { bits := 0 }
    cfg_reg_a_m := { bits := 0x3 }
    cfg_reg_b_m := { bits := 0 }
    cfg_reg_c_m := { bits := 0 }
    temp_cfg_reg_a := { bits := 0 }
    accel_odr := none }

/-- Setting a flag makes its bits read back as set: `(v ||| f) &&& f = f`. -/
theorem or_and_self (v f : Nat) : (v ||| f) &&& f = f := by
  apply Nat.eq_of_testBit_eq
  intro i
  rw [Nat.testBit_and, Nat.testBit_or]
  cases f.testBit i <;> simp

/-- Clearing a flag within the byte makes its bits read back as clear. -/
theorem andnot_and_self (v f : Nat) (hf : f < 256) : (v &&& (255 ^^^ f)) &&& f = 0 := by
  apply Nat.eq_of_testBit_eq
  intro i
  rw [Nat.testBit_and, Nat.testBit_and, Nat.testBit_xor, Nat.zero_testBit]
  by_cases hi : i < 8
  · have h255 : (255 : Nat).testBit i = true := by
      have h8 : (255 : Nat) = 2 ^ 8 - 1 := by norm_num
      rw [h8, Nat.testBit_two_pow_sub_one]
      simpa using hi
    rw [h255]
    cases f.testBit i <;> simp
  · have hfi : f.testBit i = false := by
      apply Nat.testBit_lt_two_pow
      calc f < 256 := hf
        _ = 2 ^ 8 := by norm_num
        _ ≤ 2 ^ i := Nat.pow_le_pow_right (by norm_num) (by omega)
    rw [hfi]
    simp

/-- Setting a flag does not change the bits of any disjoint flag. -/
theorem or_and_disjoint (v f g : Nat) (h : f &&& g = 0) : (v ||| f) &&& g = v &&& g := by
  apply Nat.eq_of_testBit_eq
  intro i
  have hfg : (f.testBit i && g.testBit i) = false := by
    rw [← Nat.testBit_and, h, Nat.zero_testBit]
  rw [Nat.testBit_and, Nat.testBit_or, Nat.testBit_and]
  cases hg : g.testBit i
  · simp
  · rw [hg] at hfg
    simp only [Bool.and_true] at hfg
    rw [hfg]
    simp

/-- Clearing a flag within the byte does not change the bits of any disjoint
flag that fits in the byte. -/
theorem andnot_and_disjoint (v f g : Nat) (hg : g < 256) (h : f &&& g = 0) :
    (v &&& (255 ^^^ f)) &&& g = v &&& g := by
  apply Nat.eq_of_testBit_eq
  intro i
  have hfg : (f.testBit i && g.testBit i) = false := by
    rw [← Nat.testBit_and, h, Nat.zero_testBit]
  rw [Nat.testBit_and, Nat.testBit_and, Nat.testBit_xor, Nat.testBit_and]
  cases hgi : g.testBit i
  · simp
  · have hi : i < 8 := by
      by_contra hi
      have hzero : g.testBit i = false := by
        apply Nat.testBit_lt_two_pow
        calc g < 256 := hg
          _ = 2 ^ 8 := by norm_num
          _ ≤ 2 ^ i := Nat.pow_le_pow_right (by norm_num) (by omega)
      rw [hzero] at hgi
      exact Bool.noConfusion hgi
    have h255 : (255 : Nat).testBit i = true := by
      have h8 : (255 : Nat) = 2 ^ 8 - 1 := by norm_num
      rw [h8, Nat.testBit_two_pow_sub_one]
      simpa using hi
    have hfi : f.testBit i = false := by
      rw [hgi] at hfg
      simpa using hfg
    rw [h255, hfi]
    simp

/-- Setting a flag twice equals setting it once. -/
theorem or_or_self (v f : Nat) : (v ||| f) ||| f = v ||| f := by
  apply Nat.eq_of_testBit_eq
  intro i
  simp only [Nat.testBit_or]
  cases f.testBit i <;> simp

/-- After forcing a nonzero flag high, the flag reads back high. -/
theorem is_high_with_high_self (c : Config) (f : Nat) (hf : f ≠ 0) :
    (c.with_high f).is_high f = true := by
  simp [Config.with_high, Config.is_high, or_and_self, hf]

/-- C6: for every Configuration Register Value `v` and flag masks `f`, `g`
(a flag mask is a nonzero byte-sized pattern), `with_high` produces the
bitwise OR with the prior pattern and `with_low` the bitwise AND-NOT within
the byte; `is_high f` after `with_high f` is always true and after
`with_low f` always false; and for any flag `g` disjoint from `f`, both
transformations leave `is_high g` unchanged (no cross-flag interference).
Because the equations hold at every prior pattern `v`, they hold along every
sequence of `with_high`/`with_low` applications. -/
theorem config_flag_algebra (v f g : Nat) (hf0 : f ≠ 0) (hf : f < 256) (hg : g < 256)
    (hdisj : f &&& g = 0) :
    (Config.mk v).with_high f = Config.mk (v ||| f) ∧
    (Config.mk v).with_low f = Config.mk (v &&& (255 ^^^ f)) ∧
    ((Config.mk v).with_high f).is_high f = true ∧
    ((Config.mk v).with_low f).is_high f = false ∧
    ((Config.mk v).with_high f).is_high g = (Config.mk v).is_high g ∧
    ((Config.mk v).with_low f).is_high g = (Config.mk v).is_high g := by
  refine ⟨rfl, rfl, ?_, ?_, ?_, ?_⟩
  · exact is_high_with_high_self _ f hf0
  · simp [Config.with_low, Config.is_high, andnot_and_self v f hf]
  · simp [Config.with_high, Config.is_high, or_and_disjoint v f g hdisj]
  · simp [Config.with_low, Config.is_high, andnot_and_disjoint v f g hg hdisj]

/-- Witness for C6: the flag algebra instantiated at the concrete prior
pattern 0x07, flag 0x80 and disjoint flag 0x10. -/
theorem config_flag_algebra_witness :
    (128 : Nat) ≠ 0 ∧ (128 : Nat) < 256 ∧ (16 : Nat) < 256 ∧ (128 : Nat) &&& 16 = 0 ∧
    ((Config.mk 7).with_high 128 = Config.mk (7 ||| 128) ∧
     (Config.mk 7).with_low 128 = Config.mk (7 &&& (255 ^^^ 128)) ∧
     ((Config.mk 7).with_high 128).is_high 128 = true ∧
     ((Config.mk 7).with_low 128).is_high 128 = false ∧
     ((Config.mk 7).with_high 128).is_high 16 = (Config.mk 7).is_high 16 ∧
     ((Config.mk 7).with_low 128).is_high 16 = (Config.mk 7).is_high 16) :=
  ⟨by decide, by decide, by decide, by decide,
   config_flag_algebra 7 128 16 (by decide) (by decide) (by decide) (by decide)⟩

/-- C5: `destroy` on a handle built by `new_with_i2c` returns exactly the
I2C object passed to the constructor; `destroy` on a handle built by
`new_with_spi` returns exactly the triple of the SPI object and the two
chip-select pins passed in, in that order. Both are plain functions out of
the handle: no error type and no bus model appears in their types, so they
cannot fail and perform no bus transaction. -/
theorem destroy_returns_bus {I2C : Type u} {SPI : Type v} {CSXL : Type w} {CSMAG : Type z}
    (i2c : I2C) (spi : SPI) (ca : CSXL) (cm : CSMAG) :
    (new_with_i2c i2c).destroy = i2c ∧
    (new_with_spi spi ca cm).destroy_spi = (spi, ca, cm) :=
  ⟨rfl, rfl⟩

/-- C8: both constructors initialize every cached Configuration Register
Value to the chip power-on-reset default (ctrl_reg1_a = 0x07,
cfg_reg_a_m = 0x03, the rest 0x00) and produce identical cache state; the
constructors are pure functions of their arguments over no bus model, so no
bus transaction is performed at construction. -/
theorem constructors_power_on_defaults {I2C : Type u} {SPI : Type v} {CSXL : Type w}
    {CSMAG : Type z} (i2c : I2C) (spi : SPI) (ca : CSXL) (cm : CSMAG) :
    (new_with_i2c i2c).ctrl_reg1_a = { bits := 0x07 } ∧
    (new_with_i2c i2c).ctrl_reg4_a = { bits := 0x00 } ∧
    (new_with_i2c i2c).cfg_reg_a_m = { bits := 0x03 } ∧
    (new_with_i2c i2c).cfg_reg_b_m = { bits := 0x00 } ∧
    (new_with_i2c i2c).cfg_reg_c_m = { bits := 0x00 } ∧
    (new_with_i2c i2c).temp_cfg_reg_a = { bits := 0x00 } ∧
    (new_with_spi spi ca cm).ctrl_reg1_a = { bits := 0x07 } ∧
    (new_with_spi spi ca cm).ctrl_reg4_a = { bits := 0x00 } ∧
    (new_with_spi spi ca cm).cfg_reg_a_m = { bits := 0x03 } ∧
    (new_with_spi spi ca cm).cfg_reg_b_m = { bits := 0x00 } ∧
    (new_with_spi spi ca cm).cfg_reg_c_m = { bits := 0x00 } ∧
    (new_with_spi spi ca cm).temp_cfg_reg_a = { bits := 0x00 } ∧
    cacheEq (new_with_i2c i2c) (new_with_spi spi ca cm) := by
  refine ⟨rfl, rfl, rfl, rfl, rfl, rfl, rfl, rfl, rfl, rfl, rfl, rfl, ?_⟩
  exact ⟨rfl, rfl, rfl, rfl, rfl, rfl⟩

/-- C4: `accelerometer_is_detected` returns exactly the result of
`accelerometer_id` with the byte replaced by its comparison against
WHO_AM_I_A_VAL: `ok true` on a match, `ok false` on a mismatch (never an
error), and the identical error when the read fails; the same law relates
`magnetometer_is_detected` to `magnetometer_id` and WHO_AM_I_M_VAL. -/
theorem is_detected_iff_id_matches {DI : Type u} {E : Type v}
    (bus : BusModel DI E) (d : Lsm303agr DI) :
    (d.accelerometer_is_detected bus).1 =
      (d.accelerometer_id bus).1.map (fun b => b == WHO_AM_I_A_VAL) ∧
    (d.magnetometer_is_detected bus).1 =
      (d.magnetometer_id bus).1.map (fun b => b == WHO_AM_I_M_VAL) := by
  constructor
  · rcases h : bus.read_accel_register d.iface Register.WHO_AM_I_A with ⟨r, i⟩
    cases r <;>
      simp [Lsm303agr.accelerometer_is_detected, Lsm303agr.accelerometer_id, h, Except.map]
  · rcases h : bus.read_mag_register d.iface Register.WHO_AM_I_M with ⟨r, i⟩
    cases r <;>
      simp [Lsm303agr.magnetometer_is_detected, Lsm303agr.magnetometer_id, h, Except.map]

/-- C1: in every configuration-register write performed by `init` (the
CTRL_REG4_A and CFG_REG_C_M writes) and by `enable_temperature_sensor` (the
TEMP_CFG_REG_A write), the cache field receives the new value exactly when
the physical write returned success, and keeps its prior value when the
write returned an error (or, for CFG_REG_C_M, when the preceding write
already failed so the write is never issued). -/
theorem cache_updated_iff_write_succeeded {DI : Type u} {E : Type v}
    (bus : BusModel DI E) (d : Lsm303agr DI) :
    ((d.init bus).2.1.ctrl_reg4_a =
      match (bus.write_accel_register d.iface Register.CTRL_REG4_A
              (d.ctrl_reg4_a.with_high BitFlags.ACCEL_BDU).bits).1 with
      | .ok _ => d.ctrl_reg4_a.with_high BitFlags.ACCEL_BDU
      | .error _ => d.ctrl_reg4_a) ∧
    ((d.init bus).2.1.cfg_reg_c_m =
      match bus.write_accel_register d.iface Register.CTRL_REG4_A
              (d.ctrl_reg4_a.with_high BitFlags.ACCEL_BDU).bits with
      | (.error _, _) => d.cfg_reg_c_m
      | (.ok _, i1) =>
        match (bus.write_mag_register i1 Register.CFG_REG_C_M
                (d.cfg_reg_c_m.with_high BitFlags.MAG_BDU).bits).1 with
        | .ok _ => d.cfg_reg_c_m.with_high BitFlags.MAG_BDU
        | .error _ => d.cfg_reg_c_m) ∧
    ((d.enable_temperature_sensor bus).2.1.temp_cfg_reg_a =
      if d.temp_cfg_reg_a.is_high BitFlags.TEMP_EN then d.temp_cfg_reg_a
      else
        match (bus.write_accel_register d.iface Register.TEMP_CFG_REG_A
                (d.temp_cfg_reg_a.with_high BitFlags.TEMP_EN).bits).1 with
        | .ok _ => d.temp_cfg_reg_a.with_high BitFlags.TEMP_EN
        | .error _ => d.temp_cfg_reg_a) := by
  refine ⟨?_, ?_, ?_⟩
  · rcases h1 : bus.write_accel_register d.iface Register.CTRL_REG4_A
        (d.ctrl_reg4_a.with_high BitFlags.ACCEL_BDU).bits with ⟨r1, i1⟩
    cases r1 with
    | error e => simp [Lsm303agr.init, h1]
    | ok u =>
      rcases h2 : bus.write_mag_register i1 Register.CFG_REG_C_M
          (d.cfg_reg_c_m.with_high BitFlags.MAG_BDU).bits with ⟨r2, i2⟩
      cases r2 <;> simp [Lsm303agr.init, h1, h2]
  · rcases h1 : bus.write_accel_register d.iface Register.CTRL_REG4_A
        (d.ctrl_reg4_a.with_high BitFlags.ACCEL_BDU).bits with ⟨r1, i1⟩
    cases r1 with
    | error e => simp [Lsm303agr.init, h1]
    | ok u =>
      rcases h2 : bus.write_mag_register i1 Register.CFG_REG_C_M
          (d.cfg_reg_c_m.with_high BitFlags.MAG_BDU).bits with ⟨r2, i2⟩
      cases r2 <;> simp [Lsm303agr.init, h1, h2]
  · by_cases ht : d.temp_cfg_reg_a.is_high BitFlags.TEMP_EN
    · simp [Lsm303agr.enable_temperature_sensor, ht]
    · rcases h1 : bus.write_accel_register d.iface Register.TEMP_CFG_REG_A
          (d.temp_cfg_reg_a.with_high BitFlags.TEMP_EN).bits with ⟨r1, i1⟩
      cases r1 <;> simp [Lsm303agr.enable_temperature_sensor, ht, h1]

/-- C9: when the CTRL_REG4_A write of `init` succeeds and the following
CFG_REG_C_M write fails, `init` returns that error with the cached
ctrl_reg4_a already holding the block-data-update bit and the cached
cfg_reg_c_m unchanged: the cache reflects exactly the writes that
succeeded, not all-or-nothing. -/
theorem init_partial_failure {DI : Type u} {E : Type v}
    (bus : BusModel DI E) (d : Lsm303agr DI) (i1 i2 : DI) (e : E)
    (h1 : bus.write_accel_register d.iface Register.CTRL_REG4_A
            (d.ctrl_reg4_a.with_high BitFlags.ACCEL_BDU).bits = (Except.ok (), i1))
    (h2 : bus.write_mag_register i1 Register.CFG_REG_C_M
            (d.cfg_reg_c_m.with_high BitFlags.MAG_BDU).bits = (Except.error e, i2)) :
    (d.init bus).1 = Except.error e ∧
    (d.init bus).2.1.ctrl_reg4_a = d.ctrl_reg4_a.with_high BitFlags.ACCEL_BDU ∧
    (d.init bus).2.1.cfg_reg_c_m = d.cfg_reg_c_m := by
  refine ⟨?_, ?_, ?_⟩ <;> simp [Lsm303agr.init, h1, h2]

/-- Witness for C9: on a concrete bus whose accelerometer writes succeed and
whose magnetometer writes fail, applied to the freshly constructed handle. -/
theorem init_partial_failure_witness :
    magFailBus.write_accel_register unitDev.iface Register.CTRL_REG4_A
        (unitDev.ctrl_reg4_a.with_high BitFlags.ACCEL_BDU).bits = (Except.ok (), ()) ∧
    magFailBus.write_mag_register () Register.CFG_REG_C_M
        (unitDev.cfg_reg_c_m.with_high BitFlags.MAG_BDU).bits = (Except.error (), ()) ∧
    ((unitDev.init magFailBus).1 = Except.error () ∧
     (unitDev.init magFailBus).2.1.ctrl_reg4_a =
       unitDev.ctrl_reg4_a.with_high BitFlags.ACCEL_BDU ∧
     (unitDev.init magFailBus).2.1.cfg_reg_c_m = unitDev.cfg_reg_c_m) :=
  ⟨rfl, rfl, init_partial_failure magFailBus unitDev () () () rfl rfl⟩

/-- C7: `acceleration` issues exactly one bus operation, the 3-axis burst
read starting at OUT_X_L_A; and whenever that read returns the three signed
values (x, y, z), the result is the Acceleration record with exactly those
axis values and with the mode and scale decoded from the currently cached
configuration registers of the handle. -/
theorem acceleration_single_burst_read {DI : Type u} {E : Type v}
    (bus : BusModel DI E) (d : Lsm303agr DI) :
    (d.acceleration bus).2.2 = [BusOp.readAccel3Double Register.OUT_X_L_A] ∧
    (∀ (x y z : Int) (i : DI),
      bus.read_accel_3_double_registers d.iface Register.OUT_X_L_A = (Except.ok (x, y, z), i) →
      (d.acceleration bus).1 =
        Except.ok { x := x, y := y, z := z,
                    mode := d.get_accel_mode, scale := d.get_accel_scale }) := by
  constructor
  · rcases h : bus.read_accel_3_double_registers d.iface Register.OUT_X_L_A with ⟨r, i⟩
    cases r with
    | error e => simp [Lsm303agr.acceleration, h]
    | ok t =>
      rcases t with ⟨x, y, z⟩
      simp [Lsm303agr.acceleration, h]
  · intro x y z i h
    simp [Lsm303agr.acceleration, h, Lsm303agr.get_accel_mode, Lsm303agr.get_accel_scale]

/-- Witness for C7: on a concrete bus whose burst read returns (1, 2, 3),
the acceleration result carries exactly those axis values and the cached
mode and scale of the handle. -/
theorem acceleration_single_burst_read_witness :
    okBus.read_accel_3_double_registers unitDev.iface Register.OUT_X_L_A =
      (Except.ok (1, 2, 3), ()) ∧
    (unitDev.acceleration okBus).1 =
      Except.ok { x := 1, y := 2, z := 3,
                  mode := unitDev.get_accel_mode, scale := unitDev.get_accel_scale } :=
  ⟨rfl, (acceleration_single_burst_read okBus unitDev).2 1 2 3 () rfl⟩

/-- Forcing the same flag high twice equals forcing it once. -/
theorem with_high_idem (c : Config) (f : Nat) : (c.with_high f).with_high f = c.with_high f := by
  simp [Config.with_high, or_or_self]

/-- TEMP_CFG_REG_A write count distributes over trace concatenation. -/
theorem countTempCfgWrites_append (a b : List BusOp) :
    countTempCfgWrites (a ++ b) = countTempCfgWrites a + countTempCfgWrites b :=
  List.countP_append _ _ _

/-- When every write succeeds, `init` updates both cache fields and issues
exactly the two writes, in order, with the freshly computed byte values. -/
theorem init_ok_spec {DI : Type u} {E : Type v} (bus : BusModel DI E) (d : Lsm303agr DI)
    (hw : ∀ s a v, (bus.write_accel_register s a v).1 = Except.ok ())
    (hm : ∀ s a v, (bus.write_mag_register s a v).1 = Except.ok ()) :
    (d.init bus).2.1.ctrl_reg4_a = d.ctrl_reg4_a.with_high BitFlags.ACCEL_BDU ∧
    (d.init bus).2.1.cfg_reg_c_m = d.cfg_reg_c_m.with_high BitFlags.MAG_BDU ∧
    (d.init bus).2.2 =
      [BusOp.writeAccel Register.CTRL_REG4_A (d.ctrl_reg4_a.with_high BitFlags.ACCEL_BDU).bits,
       BusOp.writeMag Register.CFG_REG_C_M (d.cfg_reg_c_m.with_high BitFlags.MAG_BDU).bits] := by
  rcases h1 : bus.write_accel_register d.iface Register.CTRL_REG4_A
      (d.ctrl_reg4_a.with_high BitFlags.ACCEL_BDU).bits with ⟨r1, i1⟩
  have e1 := hw d.iface Register.CTRL_REG4_A (d.ctrl_reg4_a.with_high BitFlags.ACCEL_BDU).bits
  rw [h1] at e1
  cases r1 with
  | error e => simp at e1
  | ok u =>
    rcases h2 : bus.write_mag_register i1 Register.CFG_REG_C_M
        (d.cfg_reg_c_m.with_high BitFlags.MAG_BDU).bits with ⟨r2, i2⟩
    have e2 := hm i1 Register.CFG_REG_C_M (d.cfg_reg_c_m.with_high BitFlags.MAG_BDU).bits
    rw [h2] at e2
    cases r2 with
    | error e => simp at e2
    | ok u2 => simp [Lsm303agr.init, h1, h2]

/-- C2: when the bus accepts every write, two consecutive `init` calls issue
identical traces (each exactly the CTRL_REG4_A write then the CFG_REG_C_M
write, with the same byte values both times, so nothing is memoized), and
after either call the cached ctrl_reg4_a has the accelerometer
block-data-update bit set and the cached cfg_reg_c_m has the magnetometer
block-data-update bit set. -/
theorem init_twice_same_writes {DI : Type u} {E : Type v}
    (bus : BusModel DI E) (d : Lsm303agr DI)
    (hw : ∀ s a v, (bus.write_accel_register s a v).1 = Except.ok ())
    (hm : ∀ s a v, (bus.write_mag_register s a v).1 = Except.ok ()) :
    (d.init bus).2.2 =
      [BusOp.writeAccel Register.CTRL_REG4_A (d.ctrl_reg4_a.with_high BitFlags.ACCEL_BDU).bits,
       BusOp.writeMag Register.CFG_REG_C_M (d.cfg_reg_c_m.with_high BitFlags.MAG_BDU).bits] ∧
    ((d.init bus).2.1.init bus).2.2 = (d.init bus).2.2 ∧
    (d.init bus).2.1.ctrl_reg4_a.is_high BitFlags.ACCEL_BDU = true ∧
    (d.init bus).2.1.cfg_reg_c_m.is_high BitFlags.MAG_BDU = true ∧
    ((d.init bus).2.1.init bus).2.1.ctrl_reg4_a.is_high BitFlags.ACCEL_BDU = true ∧
    ((d.init bus).2.1.init bus).2.1.cfg_reg_c_m.is_high BitFlags.MAG_BDU = true := by
  obtain ⟨e4, ec, etr⟩ := init_ok_spec bus d hw hm
  obtain ⟨e4b, ecb, etrb⟩ := init_ok_spec bus (d.init bus).2.1 hw hm
  refine ⟨etr, ?_, ?_, ?_, ?_, ?_⟩
  · rw [etrb, etr, e4, ec, with_high_idem, with_high_idem]
  · rw [e4]
    exact is_high_with_high_self _ _ (by decide)
  · rw [ec]
    exact is_high_with_high_self _ _ (by decide)
  · rw [e4b, e4, with_high_idem]
    exact is_high_with_high_self _ _ (by decide)
  · rw [ecb, ec, with_high_idem]
    exact is_high_with_high_self _ _ (by decide)

/-- Witness for C2: two consecutive `init` calls on the freshly constructed
handle over the always-succeeding concrete bus. -/
theorem init_twice_same_writes_witness :
    (∀ (s : Unit) (a v : Nat), (okBus.write_accel_register s a v).1 = Except.ok ()) ∧
    (∀ (s : Unit) (a v : Nat), (okBus.write_mag_register s a v).1 = Except.ok ()) ∧
    (((unitDev.init okBus).2.1.init okBus).2.2 = (unitDev.init okBus).2.2 ∧
     (unitDev.init okBus).2.1.ctrl_reg4_a.is_high BitFlags.ACCEL_BDU = true ∧
     ((unitDev.init okBus).2.1.init okBus).2.1.cfg_reg_c_m.is_high BitFlags.MAG_BDU = true) :=
  ⟨fun _ _ _ => rfl, fun _ _ _ => rfl,
   (init_twice_same_writes okBus unitDev (fun _ _ _ => rfl) (fun _ _ _ => rfl)).2.1,
   (init_twice_same_writes okBus unitDev (fun _ _ _ => rfl) (fun _ _ _ => rfl)).2.2.1,
   (init_twice_same_writes okBus unitDev (fun _ _ _ => rfl) (fun _ _ _ => rfl)).2.2.2.2.2⟩

/-- When every accelerometer write succeeds, a single `temperature_status`
call leaves the cached enable bits high, contributes one TEMP_CFG_REG_A
write exactly when the enable bits were low at entry, and its trace is the
enable step followed by the STATUS_REG_AUX_A read. -/
theorem temperature_status_call_spec {DI : Type u} {E : Type v}
    (bus : BusModel DI E) (d : Lsm303agr DI)
    (hw : ∀ s a v, (bus.write_accel_register s a v).1 = Except.ok ()) :
    (d.temperature_status bus).2.1.temp_cfg_reg_a.is_high BitFlags.TEMP_EN = true ∧
    countTempCfgWrites (d.temperature_status bus).2.2 =
      (if d.temp_cfg_reg_a.is_high BitFlags.TEMP_EN then 0 else 1) ∧
    (d.temperature_status bus).2.2 =
      (d.enable_temperature_sensor bus).2.2 ++ [BusOp.readAccel Register.STATUS_REG_AUX_A] ∧
    (d.enable_temperature_sensor bus).2.1.temp_cfg_reg_a.is_high BitFlags.TEMP_EN = true := by
  by_cases h : d.temp_cfg_reg_a.is_high BitFlags.TEMP_EN
  · rcases hr : bus.read_accel_register d.iface Register.STATUS_REG_AUX_A with ⟨r, i⟩
    cases r <;>
      simp [Lsm303agr.temperature_status, Lsm303agr.enable_temperature_sensor, h, hr,
        countTempCfgWrites]
  · rcases h1 : bus.write_accel_register d.iface Register.TEMP_CFG_REG_A
        (d.temp_cfg_reg_a.with_high BitFlags.TEMP_EN).bits with ⟨r1, i1⟩
    have e1 := hw d.iface Register.TEMP_CFG_REG_A (d.temp_cfg_reg_a.with_high BitFlags.TEMP_EN).bits
    rw [h1] at e1
    cases r1 with
    | error e => simp at e1
    | ok u =>
      rcases hr : bus.read_accel_register i1 Register.STATUS_REG_AUX_A with ⟨r, i⟩
      cases r <;>
        simp [Lsm303agr.temperature_status, Lsm303agr.enable_temperature_sensor, h, h1, hr,
          countTempCfgWrites, is_high_with_high_self _ _ (show BitFlags.TEMP_EN ≠ 0 by decide)]

/-- When every accelerometer write succeeds and the cached enable bits are
already high, any number of `temperature_status` calls issues no
TEMP_CFG_REG_A write and the bits stay high. -/
theorem temperature_status_iter_no_writes {DI : Type u} {E : Type v} (bus : BusModel DI E)
    (hw : ∀ s a v, (bus.write_accel_register s a v).1 = Except.ok ()) (n : Nat) :
    ∀ d : Lsm303agr DI, d.temp_cfg_reg_a.is_high BitFlags.TEMP_EN = true →
      (d.temperature_status_iter bus n).1.temp_cfg_reg_a.is_high BitFlags.TEMP_EN = true ∧
      countTempCfgWrites (d.temperature_status_iter bus n).2 = 0 := by
  induction n with
  | zero =>
      intro d h
      exact ⟨h, by simp [Lsm303agr.temperature_status_iter, countTempCfgWrites]⟩
  | succ n ih =>
      intro d h
      obtain ⟨hpost, hcount, -, -⟩ := temperature_status_call_spec bus d hw
      obtain ⟨ih1, ih2⟩ := ih (d.temperature_status bus).2.1 hpost
      rw [h] at hcount
      simp only [if_true] at hcount
      constructor
      · simpa [Lsm303agr.temperature_status_iter] using ih1
      · simp [Lsm303agr.temperature_status_iter, countTempCfgWrites_append, hcount, ih2]

/-- C3: when the bus accepts every accelerometer write, across any n ≥ 1
consecutive `temperature_status` calls the TEMP_CFG_REG_A enabling write is
issued exactly once if the cached temperature-enable bits were initially
low and zero times if they were already high; and every call first
guarantees the sensor is enabled — its enable step always leaves the cached
enable bits high and its trace is that enable step followed by the
STATUS_REG_AUX_A read. -/
theorem temperature_status_write_once {DI : Type u} {E : Type v}
    (bus : BusModel DI E) (d : Lsm303agr DI) (n : Nat)
    (hw : ∀ s a v, (bus.write_accel_register s a v).1 = Except.ok ())
    (hn : 1 ≤ n) :
    countTempCfgWrites (d.temperature_status_iter bus n).2 =
      (if d.temp_cfg_reg_a.is_high BitFlags.TEMP_EN then 0 else 1) ∧
    (∀ d1 : Lsm303agr DI,
      (d1.enable_temperature_sensor bus).2.1.temp_cfg_reg_a.is_high BitFlags.TEMP_EN = true ∧
      (d1.temperature_status bus).2.2 =
        (d1.enable_temperature_sensor bus).2.2 ++ [BusOp.readAccel Register.STATUS_REG_AUX_A]) := by
  constructor
  · obtain ⟨m, rfl⟩ : ∃ m, n = m + 1 := ⟨n - 1, by omega⟩
    obtain ⟨hpost, hcount, -, -⟩ := temperature_status_call_spec bus d hw
    obtain ⟨-, ihc⟩ := temperature_status_iter_no_writes bus hw m (d.temperature_status bus).2.1 hpost
    simp [Lsm303agr.temperature_status_iter, countTempCfgWrites_append, hcount, ihc]
  · intro d1
    obtain ⟨-, -, htr, hen⟩ := temperature_status_call_spec bus d1 hw
    exact ⟨hen, htr⟩

/-- Witness for C3: starting from the freshly constructed handle (enable
bits low) over the always-succeeding concrete bus, two consecutive
`temperature_status` calls issue the enabling write exactly once. -/
theorem temperature_status_write_once_witness :
    (∀ (s : Unit) (a v : Nat), (okBus.write_accel_register s a v).1 = Except.ok ()) ∧
    1 ≤ 2 ∧
    countTempCfgWrites (unitDev.temperature_status_iter okBus 2).2 = 1 :=
  ⟨fun _ _ _ => rfl, by decide,
   by simpa using
     (temperature_status_write_once okBus unitDev 2 (fun _ _ _ => rfl) (by decide)).1⟩

/-- C10: every query operation other than `temperature_status` — namely
accel_status, mag_status, acceleration, temperature, accelerometer_id,
magnetometer_id, accelerometer_is_detected and magnetometer_is_detected —
leaves the whole configuration-register cache unchanged (whether the bus
reports success or failure) and issues only register reads; in particular
`temperature` issues exactly the OUT_TEMP_L_A double read and never enables
the temperature sensor. -/
theorem queries_are_read_only {DI : Type u} {E : Type v}
    (bus : BusModel DI E) (d : Lsm303agr DI) :
    (cacheEq d (d.accel_status bus).2.1 ∧ (d.accel_status bus).2.2.all BusOp.isRead = true) ∧
    (cacheEq d (d.mag_status bus).2.1 ∧ (d.mag_status bus).2.2.all BusOp.isRead = true) ∧
    (cacheEq d (d.acceleration bus).2.1 ∧ (d.acceleration bus).2.2.all BusOp.isRead = true) ∧
    (cacheEq d (d.temperature bus).2.1 ∧ (d.temperature bus).2.2.all BusOp.isRead = true) ∧
    (cacheEq d (d.accelerometer_id bus).2.1 ∧
      (d.accelerometer_id bus).2.2.all BusOp.isRead = true) ∧
    (cacheEq d (d.magnetometer_id bus).2.1 ∧
      (d.magnetometer_id bus).2.2.all BusOp.isRead = true) ∧
    (cacheEq d (d.accelerometer_is_detected bus).2.1 ∧
      (d.accelerometer_is_detected bus).2.2.all BusOp.isRead = true) ∧
    (cacheEq d (d.magnetometer_is_detected bus).2.1 ∧
      (d.magnetometer_is_detected bus).2.2.all BusOp.isRead = true) ∧
    (d.temperature bus).2.2 = [BusOp.readAccelDouble Register.OUT_TEMP_L_A] := by
  have hstat : cacheEq d (d.accel_status bus).2.1 ∧
      (d.accel_status bus).2.2.all BusOp.isRead = true := by
    rcases h : bus.read_accel_register d.iface Register.STATUS_REG_A with ⟨r, i⟩
    cases r <;> simp [Lsm303agr.accel_status, h, cacheEq, BusOp.isRead]
  have hmstat : cacheEq d (d.mag_status bus).2.1 ∧
      (d.mag_status bus).2.2.all BusOp.isRead = true := by
    rcases h : bus.read_mag_register d.iface Register.STATUS_REG_M with ⟨r, i⟩
    cases r <;> simp [Lsm303agr.mag_status, h, cacheEq, BusOp.isRead]
  have hacc : cacheEq d (d.acceleration bus).2.1 ∧
      (d.acceleration bus).2.2.all BusOp.isRead = true := by
    rcases h : bus.read_accel_3_double_registers d.iface Register.OUT_X_L_A with ⟨r, i⟩
    cases r with
    | error e => simp [Lsm303agr.acceleration, h, cacheEq, BusOp.isRead]
    | ok t =>
      rcases t with ⟨x, y, z⟩
      simp [Lsm303agr.acceleration, h, cacheEq, BusOp.isRead]
  have htemp : (cacheEq d (d.temperature bus).2.1 ∧
      (d.temperature bus).2.2.all BusOp.isRead = true) ∧
      (d.temperature bus).2.2 = [BusOp.readAccelDouble Register.OUT_TEMP_L_A] := by
    rcases h : bus.read_accel_double_register d.iface Register.OUT_TEMP_L_A with ⟨r, i⟩
    cases r <;> simp [Lsm303agr.temperature, h, cacheEq, BusOp.isRead]
  have haid : cacheEq d (d.accelerometer_id bus).2.1 ∧
      (d.accelerometer_id bus).2.2.all BusOp.isRead = true := by
    rcases h : bus.read_accel_register d.iface Register.WHO_AM_I_A with ⟨r, i⟩
    cases r <;> simp [Lsm303agr.accelerometer_id, h, cacheEq, BusOp.isRead]
  have hmid : cacheEq d (d.magnetometer_id bus).2.1 ∧
      (d.magnetometer_id bus).2.2.all BusOp.isRead = true := by
    rcases h : bus.read_mag_register d.iface Register.WHO_AM_I_M with ⟨r, i⟩
    cases r <;> simp [Lsm303agr.magnetometer_id, h, cacheEq, BusOp.isRead]
  have hadet : cacheEq d (d.accelerometer_is_detected bus).2.1 ∧
      (d.accelerometer_is_detected bus).2.2.all BusOp.isRead = true := by
    rcases h : bus.read_accel_register d.iface Register.WHO_AM_I_A with ⟨r, i⟩
    cases r <;>
      simp [Lsm303agr.accelerometer_is_detected, Lsm303agr.accelerometer_id, h, cacheEq,
        BusOp.isRead]
  have hmdet : cacheEq d (d.magnetometer_is_detected bus).2.1 ∧
      (d.magnetometer_is_detected bus).2.2.all BusOp.isRead = true := by
    rcases h : bus.read_mag_register d.iface Register.WHO_AM_I_M with ⟨r, i⟩
    cases r <;>
      simp [Lsm303agr.magnetometer_is_detected, Lsm303agr.magnetometer_id, h, cacheEq,
        BusOp.isRead]
  exact ⟨hstat, hmstat, hacc, htemp.1, haid, hmid, hadet, hmdet, htemp.2⟩

end LSM303AGR
